import Mathlib

/-!
Shallow embedding of `src/video/filter/vf_lavfi.c` (mpv's adapter from its
video-filter pipeline to the libavfilter graph engine).

Modelling conventions:
* Calls into the external libavfilter/libavutil library are represented by
  explicit environment values (`RecreateEnv`, `SinkResult`, integer return
  codes) supplied to each operation; the adapter's own control flow and state
  updates are translated statement by statement from the C source.
* C pointers that are only tested for NULL / passed through become `Option`.
* `double` timestamps and the exact-rational `AVRational` arithmetic of
  `av_q2d`/`av_inv_q` are idealized as `ℚ`; `MP_NOPTS_VALUE` and
  `AV_NOPTS_VALUE` sentinels become `none` in `Option ℚ`.
* Allocation failures of small helper objects (`av_frame_alloc`,
  `mp_image_to_av_frame_and_unref` OOM) are not modelled (no-OOM assumption),
  matching the spec's level of description.
-/

/-- The `AVRational` from libavutil: a numerator/denominator pair. -/
structure AVRational where
  num : Int
  den : Int
deriving Repr, DecidableEq

/-- The `av_q2d`: value of a rational as an (idealized) real number. -/
def av_q2d (q : AVRational) : ℚ := (q.num : ℚ) / (q.den : ℚ)

/-- The `av_inv_q`: swap numerator and denominator. -/
def av_inv_q (q : AVRational) : AVRational := ⟨q.den, q.num⟩

/-- The `AV_TIME_BASE_Q` = 1/1000000. -/
def AV_TIME_BASE_Q : AVRational := ⟨1, 1000000⟩

/-- An `AVHWFramesContext`: contents of a hardware frames context.
`sw_format` is the software pixel format field read by `reconfig`; `payload`
stands for all the other (opaque, GPU-related) contents. -/
structure HWFramesCtx where
  sw_format : Int
  payload : Nat
deriving Repr, DecidableEq

/-- An `AVFrame` as far as this adapter reads or writes it: presentation
timestamp (`none` = `AV_NOPTS_VALUE`), sample aspect ratio, the attached
metadata dictionary, and an opaque payload for the picture data. -/
structure AVFrame where
  pts : Option ℚ
  sample_aspect_ratio : AVRational
  metadata : List (String × String)
  payload : Nat
deriving Repr, DecidableEq

/-- The `struct mp_image` as far as this adapter reads or writes it:
timestamp (`none` = `MP_NOPTS_VALUE`) and an opaque payload. -/
structure MpImage where
  pts : Option ℚ
  payload : Nat
deriving Repr, DecidableEq

/-- The `struct mp_image_params` (from `video/mp_image.h`, not under `src/`).
The adapter touches `imgfmt`, `w`, `h`, `p_w`, `p_h` and `hw_subfmt`; the
remaining fields of the C struct (colorimetry, rotation, stereo mode, ...)
are carried so that "every other field" claims are expressible. -/
structure MpImageParams where
  imgfmt : Int
  w : Int
  h : Int
  p_w : Int
  p_h : Int
  hw_subfmt : Int
  colorspace : Int
  colorlevels : Int
  primaries : Int
  gamma : Int
  chroma_location : Int
  rotate : Int
  stereo_in : Int
  stereo_out : Int
deriving Repr, DecidableEq

/-- The `AVBufferSrcParameters` as filled in by `recreate_graph`. -/
structure AVBufferSrcParameters where
  format : Int
  time_base : AVRational
  width : Int
  height : Int
  sample_aspect_ratio : AVRational
  hw_frames_ctx : Option HWFramesCtx
deriving Repr, DecidableEq

/-- An `AVFilterLink` as read by the adapter (`p->out->inputs[0]` and
`p->in->outputs[0]`): negotiated timebase, aspect ratio, dimensions, pixel
format and hardware frames context. These values are produced by the
external engine during `avfilter_graph_config`. -/
structure AVFilterLink where
  time_base : AVRational
  sample_aspect_ratio : AVRational
  w : Int
  h : Int
  format : Int
  hw_frames_ctx : Option HWFramesCtx
deriving Repr, DecidableEq

/-- The configured filter graph as the adapter observes it: the buffer-source
parameters it installed, the two links it reads back, and the queue of frames
injected into the buffer source (`none` = flush/EOF frame). -/
structure Graph where
  srcParams : AVBufferSrcParameters
  l_in : AVFilterLink
  l_out : AVFilterLink
  injected : List (Option AVFrame)
deriving Repr, DecidableEq

/-- The `struct mp_tags` (from `common/tags.h`, not under `src/`): a key/value
tag set, modelled as an association list. -/
abbrev MpTags := List (String × String)

/-- Modelled from the spec: `mp_tags_set_str` (in `common/tags.c`, not under
`src/`) stores one key/value pair, replacing an existing entry of the same
key. -/
def mp_tags_set_str (tags : MpTags) (key value : String) : MpTags :=
  if (tags.map Prod.fst).contains key then
    tags.map (fun kv => if kv.1 = key then (key, value) else kv)
  else
    tags ++ [(key, value)]

/-- Modelled from the spec: `mp_tags_copy_from_av_dictionary` (in
`common/tags.c`, not under `src/`) copies every entry of an AV dictionary
into the tag set. -/
def mp_tags_copy_from_av_dictionary (tags : MpTags) (dict : List (String × String)) :
    MpTags :=
  dict.foldl (fun t kv => mp_tags_set_str t kv.1 kv.2) tags

/-- The wrapper reconfig callback type (`lw_reconfig_cb`): given the input
params and the current output params, returns a status and the (possibly
modified) output params. -/
def LwReconfigCb := MpImageParams → MpImageParams → Int × MpImageParams

/-- The `struct vf_priv_s`. `graph` bundles `p->graph`/`p->in`/`p->out`
(`none` = graph not configured, in which case `p->in`/`p->out` are NULL too,
exactly as `destroy_graph` leaves them). `old_priv` is the opaque pointer
stashed by the lw wrapper, identified by an allocation id. -/
structure VfPriv where
  graph : Option Graph
  eof : Bool
  timebase_in : AVRational
  timebase_out : AVRational
  par_in : AVRational
  metadata : Option MpTags
  old_priv : Option Nat
  lw_reconfig_cb : Option LwReconfigCb
  cfg_graph : String
  cfg_sws_flags : Int
  cfg_avopts : List (String × String)

/-- The `SWS_BICUBIC` from libswscale (value 4). -/
def SWS_BICUBIC : Int := 4

/-- The `vf_priv_dflt`: zero-initialized except `cfg_sws_flags = SWS_BICUBIC`.
The empty `cfg_graph` string models the NULL default pointer
(`bstr0(NULL).len == 0`). -/
def vf_priv_dflt : VfPriv :=
  { graph := none
    eof := false
    timebase_in := ⟨0, 0⟩
    timebase_out := ⟨0, 0⟩
    par_in := ⟨0, 0⟩
    metadata := none
    old_priv := none
    lw_reconfig_cb := none
    cfg_graph := ""
    cfg_sws_flags := SWS_BICUBIC
    cfg_avopts := [] }

/-- The `vf_instance` fields this adapter uses: its private state, the
current input format (`vf->fmt_in`), and the two hardware-frames references.
`priv` is non-optional: the host allocates it before any callback runs. -/
structure VfInstance where
  priv : VfPriv
  fmt_in : MpImageParams
  in_hwframes_ref : Option HWFramesCtx
  out_hwframes_ref : Option HWFramesCtx

/-- The pixel-format conversion tables `imgfmt2pixfmt`/`pixfmt2imgfmt`
(from `video/fmt-conversion.c`, not under `src/`), kept abstract: the
adapter only applies them. -/
structure FmtConv where
  imgfmt2pixfmt : Int → Int
  pixfmt2imgfmt : Int → Int

/-- Outcomes of the external calls made during `recreate_graph`.
`libOk` collapses the alloc/avopts/parse/config failure points (every
`goto error` produces the same outcome); `l_in`/`l_out` are the links the
engine negotiates on success. -/
structure RecreateEnv where
  libOk : Bool
  l_in : AVFilterLink
  l_out : AVFilterLink

/-- The `destroy_graph`: frees the graph (clearing `in`/`out`), frees the stored
metadata, clears the EOF flag. -/
def destroy_graph (vf : VfInstance) : VfInstance :=
  { vf with priv := { vf.priv with graph := none, metadata := none, eof := false } }

/-- The `recreate_graph`: fails immediately when the configured graph string is
empty; otherwise destroys the old graph, builds the buffer-source parameters
(passing `vf->in_hwframes_ref` through unchanged), and asks the engine to
parse and configure the graph. Returns the C `bool` result and the new
state. -/
def recreate_graph (fc : FmtConv) (vf : VfInstance) (fmt : MpImageParams)
    (env : RecreateEnv) : Bool × VfInstance :=
  let p := vf.priv
  if p.cfg_graph = "" then  -- bstr0(p->cfg_graph).len == 0 (NULL or empty)
    (false, vf)
  else
    let vf := destroy_graph vf
    if env.libOk then
      let in_params : AVBufferSrcParameters :=
        { format := fc.imgfmt2pixfmt fmt.imgfmt
          time_base := AV_TIME_BASE_Q
          width := fmt.w
          height := fmt.h
          sample_aspect_ratio := ⟨fmt.p_w, fmt.p_h⟩
          hw_frames_ctx := vf.in_hwframes_ref }
      let g : Graph :=
        { srcParams := in_params, l_in := env.l_in, l_out := env.l_out
          injected := [] }
      (true, { vf with priv := { vf.priv with graph := some g } })
    else
      (false, vf)

/-- The `reset`: recreates the graph, but only when a graph already exists and an
input image format is set. -/
def reset (fc : FmtConv) (vf : VfInstance) (env : RecreateEnv) : VfInstance :=
  let p := vf.priv
  let f := vf.fmt_in
  if p.graph.isSome && (f.imgfmt != 0) then
    (recreate_graph fc vf f env).2
  else
    vf

/-- The part of `reconfig` below the wrapper-callback check: recreate the
graph, then read the negotiated output parameters off the buffer sink's
input link (`p->out->inputs[0]`), record the timebases and the input
sample aspect ratio (`p->in->outputs[0]`), drop the old output
hardware-frames reference, and take a reference to the sink's hardware
frames context when it has one (deriving `hw_subfmt` from its software
format). -/
def reconfigAfterCb (fc : FmtConv) (vf : VfInstance) (inp out : MpImageParams)
    (env : RecreateEnv) : Int × MpImageParams × VfInstance :=
  match recreate_graph fc vf inp env with
  | (false, vf') => (-1, out, vf')
  | (true, vf') =>
    match vf'.priv.graph with
    | none => (-1, out, vf')  -- unreachable: success always installs a graph
    | some g =>
      let l_out := g.l_out
      let l_in := g.l_in
      let p' := { vf'.priv with
                    timebase_in := l_in.time_base
                    timebase_out := l_out.time_base
                    par_in := l_in.sample_aspect_ratio }
      let out := { out with
                     w := l_out.w
                     h := l_out.h
                     p_w := l_out.sample_aspect_ratio.num
                     p_h := l_out.sample_aspect_ratio.den
                     imgfmt := fc.pixfmt2imgfmt l_out.format }
      let vf' := { vf' with priv := p', out_hwframes_ref := none }
      match l_out.hw_frames_ctx with
      | some fctx =>
        (0, { out with hw_subfmt := fc.pixfmt2imgfmt fctx.sw_format },
          { vf' with out_hwframes_ref := some fctx })
      | none => (0, out, vf')

/-- The `reconfig`: copies the input params to the output params
(`*out = *in`), runs the lw wrapper callback if installed (failing with -1
when it fails), then continues with `reconfigAfterCb`. Returns the C
result, the output params and the new state. -/
def reconfig (fc : FmtConv) (vf : VfInstance) (inp : MpImageParams)
    (env : RecreateEnv) : Int × MpImageParams × VfInstance :=
  let out := inp
  match vf.priv.lw_reconfig_cb with
  | some cb =>
    let (r, out') := cb inp out
    if r < 0 then (-1, out', vf) else reconfigAfterCb fc vf inp out' env
  | none => reconfigAfterCb fc vf inp out env

/-- The `query_format`: accepts every format ("format negotiation is not
possible with libavfilter"). -/
def query_format (vf : VfInstance) (fmt : Int) : Int := 1

/-- The `mp_to_av`: NULL maps to NULL; otherwise the image's pts (scaled by the
reciprocal of the stored input timebase; `MP_NOPTS_VALUE` to
`AV_NOPTS_VALUE`) and the stored input aspect ratio are written onto the
frame produced from the image. -/
def mp_to_av (p : VfPriv) (img : Option MpImage) : Option AVFrame :=
  match img with
  | none => none
  | some img =>
    let pts : Option ℚ := img.pts.map (fun t => t * av_q2d (av_inv_q p.timebase_in))
    some { pts := pts
           sample_aspect_ratio := p.par_in
           metadata := []
           payload := img.payload }

/-- The `av_to_mp`: the frame's pts scaled by the stored output timebase
(`AV_NOPTS_VALUE` to `MP_NOPTS_VALUE`), on the image produced from the
frame. -/
def av_to_mp (p : VfPriv) (frame : AVFrame) : MpImage :=
  { pts := frame.pts.map (fun t => t * av_q2d p.timebase_out)
    payload := frame.payload }

/-- The `get_metadata_from_av_frame`: allocate the tag set on first use, then
copy the frame's metadata dictionary into it. -/
def get_metadata_from_av_frame (p : VfPriv) (frame : AVFrame) : VfPriv :=
  let tags := p.metadata.getD []
  { p with metadata := some (mp_tags_copy_from_av_dictionary tags frame.metadata) }

/-- The body of `filter_ext` after its initial EOF-reset branch: bail out if
no graph is configured; a NULL image with EOF already latched is a no-op;
otherwise a NULL image latches EOF, and the (possibly NULL/flush) frame is
handed to `av_buffersrc_add_frame`. `addRet` is that call's return value
(negative = failure, in which case the engine does not take the frame). -/
def filter_ext_inject (fc : FmtConv) (vf : VfInstance) (mpi : Option MpImage)
    (addRet : Int) : Int × VfInstance :=
  match vf.priv.graph with
  | none => (-1, vf)
  | some g =>
    if mpi.isNone && vf.priv.eof then
      (0, vf)
    else
      let vf := if mpi.isNone then
                  { vf with priv := { vf.priv with eof := true } }
                else vf
      let frame := mp_to_av vf.priv mpi
      if addRet < 0 then
        (-1, vf)
      else
        (0, { vf with priv := { vf.priv with
                graph := some { g with injected := g.injected ++ [frame] } } })

/-- The `filter_ext`: when EOF was reached and a new (non-NULL) image arrives,
the graph is forcefully reset first; then the frame (or flush) is injected
by `filter_ext_inject`. -/
def filter_ext (fc : FmtConv) (vf : VfInstance) (mpi : Option MpImage)
    (env : RecreateEnv) (addRet : Int) : Int × VfInstance :=
  let vf := if vf.priv.eof && mpi.isSome then reset fc vf env else vf
  filter_ext_inject fc vf mpi addRet

/-- Result of `av_buffersink_get_frame`: a frame, `AVERROR(EAGAIN)`,
`AVERROR_EOF`, or any other negative error code. -/
inductive SinkResult where
  | frame (f : AVFrame)
  | eagain
  | eof
  | error (code : Int)
deriving Repr

/-- The `filter_out`: pull one frame from the buffer sink. EAGAIN/EOF yield no
output and return 0 (EOF also latches the EOF flag); other errors return -1;
a frame has its metadata copied, is converted, and is appended as the single
output frame. The second component is the list of frames passed to
`vf_add_output_frame`. -/
def filter_out (vf : VfInstance) (sink : SinkResult) :
    Int × VfInstance × List MpImage :=
  match sink with
  | .eagain => (0, vf, [])
  | .eof => (0, { vf with priv := { vf.priv with eof := true } }, [])
  | .error _ => (-1, vf, [])
  | .frame f =>
    let p := get_metadata_from_av_frame vf.priv f
    (0, { vf with priv := p }, [av_to_mp p f])

/-- The `vf_ctrl` requests reaching `control`, with their `data` argument:
`VFCTRL_COMMAND` carries two strings; any request other than the three
handled ones is `other`. -/
inductive VfCtrl where
  | seekReset
  | command (arg0 arg1 : String)
  | getMetadata
  | other (n : Int)
deriving Repr, DecidableEq

/-- mpv control-result codes (`CONTROL_OK = 1`, `CONTROL_UNKNOWN = -1`,
`CONTROL_ERROR = -2`, `CONTROL_NA = -3`). -/
def CONTROL_OK : Int := 1
/-- The `CONTROL_UNKNOWN`. -/
def CONTROL_UNKNOWN : Int := -1
/-- The `CONTROL_ERROR`. -/
def CONTROL_ERROR : Int := -2
/-- The `CONTROL_NA`. -/
def CONTROL_NA : Int := -3

/-- The observable outcome of one `control` call: the returned code, the new
state, the tag set written into `*data` by `VFCTRL_GET_METADATA`, and the
(target, arg0, arg1) triple passed to `avfilter_graph_send_command` when that
call was made. -/
structure ControlOut where
  ret : Int
  vf : VfInstance
  dataTags : Option MpTags
  cmdSent : Option (String × String × String)

/-- The `control` (named `vf_control` here because `control` already exists in
the ambient library): dispatch on the request. `sendRet` is the return value
of `avfilter_graph_send_command`. -/
def vf_control (fc : FmtConv) (vf : VfInstance) (request : VfCtrl)
    (env : RecreateEnv) (sendRet : Int) : ControlOut :=
  match request with
  | .seekReset => ⟨CONTROL_OK, reset fc vf env, none, none⟩
  | .command a0 a1 =>
    match vf.priv.graph with
    | none => ⟨CONTROL_UNKNOWN, vf, none, none⟩
    | some _ =>
      ⟨if sendRet ≥ 0 then CONTROL_OK else CONTROL_ERROR, vf, none,
        some ("all", a0, a1)⟩
  | .getMetadata =>
    match vf.priv.metadata with
    | some m => ⟨CONTROL_OK, vf, some m, none⟩
    | none => ⟨CONTROL_NA, vf, none, none⟩
  | .other _ => ⟨CONTROL_UNKNOWN, vf, none, none⟩

/-! ### The old-filters wrapper (`vf_lw_*`) -/

/-- A `vf_instance` callback slot: not set (`NULL`), one of the `vf_lavfi`
functions (identified by name), or some other filter's function
(identified by an opaque id). -/
inductive VfCallback where
  | unset
  | lavfi (fname : String)
  | foreign (id : Nat)
deriving Repr, DecidableEq

/-- The `vf_instance` as the lw wrapper sees it: the current private-data
block (its allocation identity `priv_id`, and its contents `priv` when it is
a `vf_lavfi` private block — `none` when it still belongs to the wrapped old
filter) and the seven callback slots overwritten by `vf_open`. -/
structure LwInstance where
  priv_id : Nat
  priv : Option VfPriv
  reconfig_cb : VfCallback
  filter_ext_cb : VfCallback
  filter_out_cb : VfCallback
  filter_cb : VfCallback
  query_format_cb : VfCallback
  control_cb : VfCallback
  uninit_cb : VfCallback

/-- The `vf_open`: installs every `vf_lavfi` callback (`vf->filter = NULL`) and
returns 1. -/
def vf_open (vf : LwInstance) : Int × LwInstance :=
  (1, { vf with
          reconfig_cb := .lavfi "reconfig"
          filter_ext_cb := .lavfi "filter_ext"
          filter_out_cb := .lavfi "filter_out"
          filter_cb := .unset
          query_format_cb := .lavfi "query_format"
          control_cb := .lavfi "control"
          uninit_cb := .lavfi "uninit" })

/-- The `struct vf_lw_opts`. -/
structure VfLwOpts where
  sws_flags : Int
  avopts : List (String × String)
deriving Repr, DecidableEq

/-- The defaults of `vf_lw_conf`. -/
def vf_lw_conf_defaults : VfLwOpts :=
  { sws_flags := SWS_BICUBIC, avopts := [] }

/-- The `have_filter`: walks the libavfilter registry (`avfilter_next`) looking
for a filter of the given name. The registry contents are an input. -/
def have_filter (registry : List String) (name : String) : Bool :=
  registry.any (fun f => f = name)

/-- The `vf_lw_set_graph`: refuses (returning -1, changing nothing) when a
filter name is given that the registry does not know; otherwise allocates a
fresh `vf_lavfi` private block (defaults, the lw options' sws flags and
avopts, the graph string `filter=opts` or plain `opts`, and the old private
block stashed in `old_priv`), installs it, runs `vf_open`, and returns 1.
`s` is the already-formatted `opts` string (`talloc_vasprintf` result). -/
def vf_lw_set_graph (registry : List String) (vf : LwInstance)
    (lavfi_opts : Option VfLwOpts) (filter : Option String) (s : String) :
    Int × LwInstance :=
  let lavfi_opts := lavfi_opts.getD vf_lw_conf_defaults
  if filter.isSome && !have_filter registry (filter.getD "") then
    (-1, vf)
  else
    let old_priv := vf.priv_id
    let p : VfPriv :=
      { vf_priv_dflt with
          cfg_sws_flags := lavfi_opts.sws_flags
          cfg_avopts := lavfi_opts.avopts
          cfg_graph := match filter with
                       | some f => f ++ "=" ++ s
                       | none => s
          old_priv := some old_priv }
    let vf := { vf with priv_id := vf.priv_id + 1, priv := some p }
    (1, (vf_open vf).2)

/-! ### Derived descriptions of the operations' results, and helper lemmas -/

/-- The state `recreate_graph` leaves behind on success: the old graph,
metadata and EOF flag destroyed, and the freshly configured graph (carrying
the buffer-source parameters, the negotiated links and an empty injection
queue) installed. -/
def recreateOkState (fc : FmtConv) (vf : VfInstance) (fmt : MpImageParams)
    (env : RecreateEnv) : VfInstance :=
  { vf with priv := { vf.priv with
      graph := some
        { srcParams :=
            { format := fc.imgfmt2pixfmt fmt.imgfmt
              time_base := AV_TIME_BASE_Q
              width := fmt.w
              height := fmt.h
              sample_aspect_ratio := ⟨fmt.p_w, fmt.p_h⟩
              hw_frames_ctx := vf.in_hwframes_ref }
          l_in := env.l_in
          l_out := env.l_out
          injected := [] }
      metadata := none
      eof := false } }

/-- The output parameters produced by a successful `reconfig` from the
post-callback parameters `out`. -/
def reconfigOkParams (fc : FmtConv) (out : MpImageParams) (env : RecreateEnv) :
    MpImageParams :=
  let out1 := { out with
    w := env.l_out.w
    h := env.l_out.h
    p_w := env.l_out.sample_aspect_ratio.num
    p_h := env.l_out.sample_aspect_ratio.den
    imgfmt := fc.pixfmt2imgfmt env.l_out.format }
  match env.l_out.hw_frames_ctx with
  | some fctx => { out1 with hw_subfmt := fc.pixfmt2imgfmt fctx.sw_format }
  | none => out1

/-- The instance state left behind by a successful `reconfig`. -/
def reconfigOkState (fc : FmtConv) (vf : VfInstance) (inp : MpImageParams)
    (env : RecreateEnv) : VfInstance :=
  let vf1 := recreateOkState fc vf inp env
  { vf1 with
      priv := { vf1.priv with
        timebase_in := env.l_in.time_base
        timebase_out := env.l_out.time_base
        par_in := env.l_in.sample_aspect_ratio }
      out_hwframes_ref := env.l_out.hw_frames_ctx }

/-- The EOF flag is only ever raised while a graph is configured. -/
def EofInv (vf : VfInstance) : Prop :=
  vf.priv.eof = true → vf.priv.graph.isSome = true

theorem recreate_graph_empty (fc : FmtConv) (vf : VfInstance)
    (fmt : MpImageParams) (env : RecreateEnv) (h : vf.priv.cfg_graph = "") :
    recreate_graph fc vf fmt env = (false, vf) := by
  simp [recreate_graph, h]

theorem recreate_graph_noLib (fc : FmtConv) (vf : VfInstance)
    (fmt : MpImageParams) (env : RecreateEnv) (h : vf.priv.cfg_graph ≠ "")
    (hl : env.libOk = false) :
    recreate_graph fc vf fmt env = (false, destroy_graph vf) := by
  simp [recreate_graph, h, hl]

theorem recreate_graph_success (fc : FmtConv) (vf : VfInstance)
    (fmt : MpImageParams) (env : RecreateEnv) (h : vf.priv.cfg_graph ≠ "")
    (hl : env.libOk = true) :
    recreate_graph fc vf fmt env = (true, recreateOkState fc vf fmt env) := by
  simp [recreate_graph, h, hl, destroy_graph, recreateOkState]

theorem reconfigAfterCb_success (fc : FmtConv) (vf : VfInstance)
    (inp out : MpImageParams) (env : RecreateEnv)
    (h : vf.priv.cfg_graph ≠ "") (hl : env.libOk = true) :
    reconfigAfterCb fc vf inp out env =
      (0, reconfigOkParams fc out env, reconfigOkState fc vf inp env) := by
  rw [reconfigAfterCb, recreate_graph_success fc vf inp env h hl]
  simp only [recreateOkState, reconfigOkParams, reconfigOkState]
  cases env.l_out.hw_frames_ctx <;> rfl

theorem reconfigAfterCb_noGraph (fc : FmtConv) (vf : VfInstance)
    (inp out : MpImageParams) (env : RecreateEnv)
    (h : vf.priv.cfg_graph ≠ "") (hl : env.libOk = false) :
    reconfigAfterCb fc vf inp out env = (-1, out, destroy_graph vf) := by
  rw [reconfigAfterCb, recreate_graph_noLib fc vf inp env h hl]

theorem reconfigAfterCb_empty (fc : FmtConv) (vf : VfInstance)
    (inp out : MpImageParams) (env : RecreateEnv)
    (h : vf.priv.cfg_graph = "") :
    reconfigAfterCb fc vf inp out env = (-1, out, vf) := by
  rw [reconfigAfterCb, recreate_graph_empty fc vf inp env h]

/-! ### Concrete fixtures (used by witnesses and counterexamples) -/

/-- A trivial pixel-format conversion table. -/
def fcId : FmtConv := { imgfmt2pixfmt := fun x => x, pixfmt2imgfmt := fun x => x }

/-- A sample negotiated buffer-source output link. -/
def linkIn : AVFilterLink :=
  { time_base := ⟨1, 90000⟩, sample_aspect_ratio := ⟨1, 1⟩, w := 1280, h := 720
    format := 23, hw_frames_ctx := none }

/-- A sample negotiated buffer-sink input link (no hardware frames). -/
def linkOut : AVFilterLink :=
  { time_base := ⟨1, 25⟩, sample_aspect_ratio := ⟨4, 3⟩, w := 640, h := 480
    format := 7, hw_frames_ctx := none }

/-- A sample buffer-sink input link exposing a hardware frames context. -/
def linkOutHw : AVFilterLink :=
  { linkOut with hw_frames_ctx := some ⟨42, 5⟩ }

/-- An environment where every external call succeeds. -/
def envA : RecreateEnv := { libOk := true, l_in := linkIn, l_out := linkOut }

/-- A succeeding environment whose sink link has a hardware frames context. -/
def envHw : RecreateEnv := { envA with l_out := linkOutHw }

/-- An environment where some external graph-setup call fails. -/
def envFail : RecreateEnv := { envA with libOk := false }

/-- Sample input image parameters. -/
def paramsA : MpImageParams :=
  { imgfmt := 1, w := 1280, h := 720, p_w := 1, p_h := 1, hw_subfmt := 0
    colorspace := 2, colorlevels := 1, primaries := 3, gamma := 4
    chroma_location := 1, rotate := 90, stereo_in := 0, stereo_out := 0 }

/-- A sample configured graph. -/
def graphA : Graph :=
  { srcParams :=
      { format := 1, time_base := AV_TIME_BASE_Q, width := 1280, height := 720
        sample_aspect_ratio := ⟨1, 1⟩, hw_frames_ctx := none }
    l_in := linkIn, l_out := linkOut, injected := [] }

/-- A sample configured private state. -/
def privA : VfPriv :=
  { vf_priv_dflt with
      graph := some graphA
      cfg_graph := "gradfun=20:30"
      timebase_in := ⟨1, 90000⟩
      timebase_out := ⟨1, 25⟩
      par_in := ⟨1, 1⟩ }

/-- A sample configured instance. -/
def vfA : VfInstance :=
  { priv := privA, fmt_in := paramsA, in_hwframes_ref := none
    out_hwframes_ref := none }

/-- The `vfA` with the EOF flag latched. -/
def vfEof : VfInstance := { vfA with priv := { privA with eof := true } }

/-- The `vfA` with stored metadata. -/
def vfMeta : VfInstance :=
  { vfA with priv := { privA with metadata := some [("key", "value")] } }

/-- The `vfA` without a configured graph. -/
def vfNoGraph : VfInstance := { vfA with priv := { privA with graph := none } }

/-- A sample input image. -/
def imgC : MpImage := { pts := some 3, payload := 7 }

/-- A sample frame coming out of the buffer sink. -/
def frameC : AVFrame :=
  { pts := some 5, sample_aspect_ratio := ⟨1, 1⟩
    metadata := [("lavfi.scd.score", "1")], payload := 9 }

/-- A sample frame without a timestamp. -/
def frameN : AVFrame :=
  { pts := none, sample_aspect_ratio := ⟨1, 1⟩, metadata := [], payload := 2 }

/-- The frame `mp_to_av privA (some imgC)` produces. -/
def frameM : AVFrame :=
  { pts := some (3 * av_q2d (av_inv_q privA.timebase_in))
    sample_aspect_ratio := privA.par_in
    metadata := []
    payload := 7 }

/-! ### The claims -/

/-- C9: `query_format` returns 1 for every image format value: the adapter
accepts every input format unconditionally and performs no format
negotiation of its own. -/
theorem query_format_accepts_everything (vf : VfInstance) (fmt : Int) :
    query_format vf fmt = 1 := rfl

/-- C2: timestamp and aspect-ratio marshalling. For every non-NULL input
image, `mp_to_av` produces a frame whose pts is `AV_NOPTS_VALUE` (`none`)
exactly when the image's pts is `MP_NOPTS_VALUE` (`none`) and otherwise the
image's pts scaled by the reciprocal of the stored input timebase, and whose
`sample_aspect_ratio` equals the stored input pixel aspect ratio; for every
frame, `av_to_mp` produces an image whose pts is `MP_NOPTS_VALUE` exactly
when the frame's pts is `AV_NOPTS_VALUE` and otherwise the frame's pts
scaled by the stored output timebase. -/
theorem mp_to_av_av_to_mp_marshalling (p : VfPriv) (img : MpImage)
    (frame : AVFrame) :
    mp_to_av p (some img) ≠ none ∧
    (∀ f, mp_to_av p (some img) = some f →
      (img.pts = none → f.pts = none) ∧
      (∀ t : ℚ, img.pts = some t →
        f.pts = some (t * av_q2d (av_inv_q p.timebase_in))) ∧
      f.sample_aspect_ratio = p.par_in) ∧
    (frame.pts = none → (av_to_mp p frame).pts = none) ∧
    (∀ t : ℚ, frame.pts = some t →
      (av_to_mp p frame).pts = some (t * av_q2d p.timebase_out)) := by
  refine ⟨by simp [mp_to_av], ?_, ?_, ?_⟩
  · intro f hf
    simp only [mp_to_av, Option.some.injEq] at hf
    subst hf
    refine ⟨fun h => by simp [h], fun t h => by simp [h], rfl⟩
  · intro h
    simp [av_to_mp, h]
  · intro t h
    simp [av_to_mp, h]

/-- Witness for C2 at concrete inputs. -/
theorem mp_to_av_av_to_mp_marshalling_witness :
    frameM.pts = some (3 * av_q2d (av_inv_q privA.timebase_in)) ∧
    frameM.sample_aspect_ratio = privA.par_in ∧
    (av_to_mp privA frameC).pts = some (5 * av_q2d privA.timebase_out) ∧
    (av_to_mp privA frameN).pts = none := by
  have h := mp_to_av_av_to_mp_marshalling privA imgC frameC
  have h2 := mp_to_av_av_to_mp_marshalling privA imgC frameN
  exact ⟨(h.2.1 frameM rfl).2.1 3 rfl, (h.2.1 frameM rfl).2.2,
    h.2.2.2 5 rfl, h2.2.2.1 rfl⟩

/-- C6: `filter_out` retrieves exactly one frame per call from the buffer
sink: EAGAIN or EOF from the sink yield 0 and no output (EOF latches the
EOF flag); any other negative error yields -1 and no output; a frame has
its metadata copied, is converted, and is appended as one output frame with
result 0. -/
theorem filter_out_one_frame_per_call (vf : VfInstance) (f : AVFrame)
    (c : Int) :
    filter_out vf .eagain = (0, vf, []) ∧
    filter_out vf .eof =
      (0, { vf with priv := { vf.priv with eof := true } }, []) ∧
    filter_out vf (.error c) = (-1, vf, []) ∧
    filter_out vf (.frame f) =
      (0, { vf with priv := get_metadata_from_av_frame vf.priv f },
        [av_to_mp (get_metadata_from_av_frame vf.priv f) f]) :=
  ⟨rfl, rfl, rfl, rfl⟩

/-- C7: every frame successfully retrieved from the buffer sink has its
metadata dictionary copied into the adapter's stored tag set (allocated on
first use), and `VFCTRL_GET_METADATA` returns the stored tags with
`CONTROL_OK` when metadata has been stored and `CONTROL_NA` when none has
been stored. -/
theorem metadata_copy_and_query (fc : FmtConv) (vf : VfInstance)
    (f : AVFrame) (env : RecreateEnv) (sendRet : Int) (m : MpTags) :
    (filter_out vf (.frame f)).2.1.priv.metadata =
      some (mp_tags_copy_from_av_dictionary (vf.priv.metadata.getD [])
        f.metadata) ∧
    (vf.priv.metadata = some m →
      vf_control fc vf .getMetadata env sendRet =
        ⟨CONTROL_OK, vf, some m, none⟩) ∧
    (vf.priv.metadata = none →
      vf_control fc vf .getMetadata env sendRet =
        ⟨CONTROL_NA, vf, none, none⟩) := by
  refine ⟨rfl, ?_, ?_⟩ <;> intro h <;> simp [vf_control, h]

/-- Witness for C7 at concrete inputs. -/
theorem metadata_copy_and_query_witness :
    (filter_out vfA (.frame frameC)).2.1.priv.metadata =
      some (mp_tags_copy_from_av_dictionary [] frameC.metadata) ∧
    vf_control fcId vfMeta .getMetadata envA 0 =
      ⟨CONTROL_OK, vfMeta, some [("key", "value")], none⟩ ∧
    vf_control fcId vfA .getMetadata envA 0 = ⟨CONTROL_NA, vfA, none, none⟩ :=
  ⟨(metadata_copy_and_query fcId vfA frameC envA 0 []).1,
   (metadata_copy_and_query fcId vfMeta frameC envA 0 [("key", "value")]).2.1
     rfl,
   (metadata_copy_and_query fcId vfA frameC envA 0 []).2.2 rfl⟩

/-- C4 as stated is false: `VFCTRL_GET_METADATA` is a request other than
`VFCTRL_SEEK_RESET`/`VFCTRL_COMMAND`, yet `control` answers it with
`CONTROL_NA` (when no metadata is stored), not `CONTROL_UNKNOWN`. -/
theorem control_unknown_counterexample :
    (vf_control fcId vfA .getMetadata envA 0).ret = CONTROL_NA ∧
    CONTROL_NA ≠ CONTROL_UNKNOWN :=
  ⟨rfl, by decide⟩

/-- C4 (amended): `VFCTRL_SEEK_RESET` resets (recreating the graph exactly
when one exists and an input format is set) and returns `CONTROL_OK`;
`VFCTRL_COMMAND` with a graph forwards its two argument strings to
`avfilter_graph_send_command` with target "all" and returns `CONTROL_OK`
exactly when the send succeeds, `CONTROL_ERROR` otherwise; `VFCTRL_COMMAND`
without a graph and any request other than the three handled ones return
`CONTROL_UNKNOWN` (`VFCTRL_GET_METADATA` is handled separately, see C7). -/
theorem control_dispatch (fc : FmtConv) (vf : VfInstance) (env : RecreateEnv)
    (sendRet : Int) (a0 a1 : String) (g : Graph) (n : Int) :
    vf_control fc vf .seekReset env sendRet =
      ⟨CONTROL_OK, reset fc vf env, none, none⟩ ∧
    ((vf.priv.graph.isSome && (vf.fmt_in.imgfmt != 0)) = true →
      reset fc vf env = (recreate_graph fc vf vf.fmt_in env).2) ∧
    ((vf.priv.graph.isSome && (vf.fmt_in.imgfmt != 0)) = false →
      reset fc vf env = vf) ∧
    (vf.priv.graph = some g → sendRet ≥ 0 →
      vf_control fc vf (.command a0 a1) env sendRet =
        ⟨CONTROL_OK, vf, none, some ("all", a0, a1)⟩) ∧
    (vf.priv.graph = some g → sendRet < 0 →
      vf_control fc vf (.command a0 a1) env sendRet =
        ⟨CONTROL_ERROR, vf, none, some ("all", a0, a1)⟩) ∧
    (vf.priv.graph = none →
      vf_control fc vf (.command a0 a1) env sendRet =
        ⟨CONTROL_UNKNOWN, vf, none, none⟩) ∧
    vf_control fc vf (.other n) env sendRet =
      ⟨CONTROL_UNKNOWN, vf, none, none⟩ := by
  refine ⟨rfl, ?_, ?_, ?_, ?_, ?_, rfl⟩
  · intro h; simp [reset, h]
  · intro h; simp [reset, h]
  · intro hg hs; simp [vf_control, hg, hs]
  · intro hg hs
    have : ¬ sendRet ≥ 0 := by omega
    simp [vf_control, hg, this]
  · intro hg; simp [vf_control, hg]

/-- Witness for C4 (amended) at concrete inputs. -/
theorem control_dispatch_witness :
    vf_control fcId vfA .seekReset envA 0 =
      ⟨CONTROL_OK, reset fcId vfA envA, none, none⟩ ∧
    reset fcId vfA envA = (recreate_graph fcId vfA vfA.fmt_in envA).2 ∧
    reset fcId vfNoGraph envA = vfNoGraph ∧
    vf_control fcId vfA (.command "gradfun" "15") envA 0 =
      ⟨CONTROL_OK, vfA, none, some ("all", "gradfun", "15")⟩ ∧
    vf_control fcId vfA (.command "gradfun" "15") envA (-5) =
      ⟨CONTROL_ERROR, vfA, none, some ("all", "gradfun", "15")⟩ ∧
    vf_control fcId vfNoGraph (.command "gradfun" "15") envA 0 =
      ⟨CONTROL_UNKNOWN, vfNoGraph, none, none⟩ ∧
    vf_control fcId vfA (.other 99) envA 0 =
      ⟨CONTROL_UNKNOWN, vfA, none, none⟩ := by
  have h := control_dispatch fcId vfA envA 0 "gradfun" "15" graphA 99
  have h5 := control_dispatch fcId vfA envA (-5) "gradfun" "15" graphA 99
  have hn := control_dispatch fcId vfNoGraph envA 0 "gradfun" "15" graphA 99
  exact ⟨h.1, h.2.1 rfl, hn.2.2.1 rfl, h.2.2.2.1 rfl (by decide),
    h5.2.2.2.2.1 rfl (by decide), hn.2.2.2.2.2.1 rfl, h.2.2.2.2.2.2⟩

theorem reconfig_cb_none (fc : FmtConv) (vf : VfInstance)
    (inp : MpImageParams) (env : RecreateEnv)
    (h : vf.priv.lw_reconfig_cb = none) :
    reconfig fc vf inp env = reconfigAfterCb fc vf inp inp env := by
  simp [reconfig, h]

theorem reconfig_cb_some (fc : FmtConv) (vf : VfInstance)
    (inp : MpImageParams) (env : RecreateEnv) (cb : LwReconfigCb)
    (h : vf.priv.lw_reconfig_cb = some cb) :
    reconfig fc vf inp env =
      if (cb inp inp).1 < 0 then (-1, (cb inp inp).2, vf)
      else reconfigAfterCb fc vf inp (cb inp inp).2 env := by
  simp only [reconfig, h]

theorem reconfigAfterCb_noLib_fst (fc : FmtConv) (vf : VfInstance)
    (inp out : MpImageParams) (env : RecreateEnv) (hl : env.libOk = false) :
    (reconfigAfterCb fc vf inp out env).1 = -1 := by
  by_cases h : vf.priv.cfg_graph = ""
  · rw [reconfigAfterCb_empty fc vf inp out env h]
  · rw [reconfigAfterCb_noGraph fc vf inp out env h hl]

/-- A wrapper callback that fails. -/
def cbFail : LwReconfigCb := fun _ out => (-1, out)

/-- A wrapper callback that succeeds but bumps the `rotate` field of the
output parameters. -/
def cbRot : LwReconfigCb := fun _ out => (0, { out with rotate := out.rotate + 1 })

/-- The `vfA` with the failing wrapper callback installed. -/
def vfCbFail : VfInstance :=
  { vfA with priv := { privA with lw_reconfig_cb := some cbFail } }

/-- The `vfA` with the rotate-bumping wrapper callback installed. -/
def vfCbRot : VfInstance :=
  { vfA with priv := { privA with lw_reconfig_cb := some cbRot } }

/-- The `vfA` with no filter-graph string configured. -/
def vfEmptyCfg : VfInstance := { vfA with priv := { privA with cfg_graph := "" } }

/-- C5: `reconfig` returns -1 when the wrapper reconfiguration callback
fails or when the graph cannot be recreated (in particular whenever the
configured filter-graph string is empty); otherwise it returns 0, sets the
output parameters' width, height, pixel aspect ratio and image format from
the buffer sink's input link, and records the input/output timebases and
the input sample aspect ratio for later frame marshalling. -/
theorem reconfig_result (fc : FmtConv) (vf : VfInstance)
    (inp : MpImageParams) (env : RecreateEnv) (cb : LwReconfigCb) :
    (vf.priv.lw_reconfig_cb = some cb → (cb inp inp).1 < 0 →
      (reconfig fc vf inp env).1 = -1) ∧
    (vf.priv.cfg_graph = "" → (reconfig fc vf inp env).1 = -1) ∧
    (env.libOk = false → (reconfig fc vf inp env).1 = -1) ∧
    (vf.priv.lw_reconfig_cb = none → vf.priv.cfg_graph ≠ "" →
      env.libOk = true →
      reconfig fc vf inp env =
        (0, reconfigOkParams fc inp env, reconfigOkState fc vf inp env)) ∧
    (vf.priv.lw_reconfig_cb = some cb → (cb inp inp).1 ≥ 0 →
      vf.priv.cfg_graph ≠ "" → env.libOk = true →
      reconfig fc vf inp env =
        (0, reconfigOkParams fc (cb inp inp).2 env,
          reconfigOkState fc vf inp env)) ∧
    ((reconfigOkState fc vf inp env).priv.timebase_in = env.l_in.time_base ∧
     (reconfigOkState fc vf inp env).priv.timebase_out =
       env.l_out.time_base ∧
     (reconfigOkState fc vf inp env).priv.par_in =
       env.l_in.sample_aspect_ratio ∧
     (reconfigOkParams fc inp env).w = env.l_out.w ∧
     (reconfigOkParams fc inp env).h = env.l_out.h ∧
     (reconfigOkParams fc inp env).p_w = env.l_out.sample_aspect_ratio.num ∧
     (reconfigOkParams fc inp env).p_h = env.l_out.sample_aspect_ratio.den ∧
     (reconfigOkParams fc inp env).imgfmt =
       fc.pixfmt2imgfmt env.l_out.format) := by
  refine ⟨?_, ?_, ?_, ?_, ?_, ?_⟩
  · intro h hlt
    rw [reconfig_cb_some fc vf inp env cb h, if_pos hlt]
  · intro h
    rcases hcb : vf.priv.lw_reconfig_cb with _ | cb'
    · rw [reconfig_cb_none fc vf inp env hcb,
        reconfigAfterCb_empty fc vf inp inp env h]
    · rw [reconfig_cb_some fc vf inp env cb' hcb]
      by_cases hr : (cb' inp inp).1 < 0
      · rw [if_pos hr]
      · rw [if_neg hr, reconfigAfterCb_empty fc vf inp _ env h]
  · intro hl
    rcases hcb : vf.priv.lw_reconfig_cb with _ | cb'
    · rw [reconfig_cb_none fc vf inp env hcb]
      exact reconfigAfterCb_noLib_fst fc vf inp inp env hl
    · rw [reconfig_cb_some fc vf inp env cb' hcb]
      by_cases hr : (cb' inp inp).1 < 0
      · rw [if_pos hr]
      · rw [if_neg hr]
        exact reconfigAfterCb_noLib_fst fc vf inp _ env hl
  · intro hcb hg hl
    rw [reconfig_cb_none fc vf inp env hcb,
      reconfigAfterCb_success fc vf inp inp env hg hl]
  · intro hcb hge hg hl
    rw [reconfig_cb_some fc vf inp env cb hcb, if_neg (by omega),
      reconfigAfterCb_success fc vf inp _ env hg hl]
  · refine ⟨rfl, rfl, rfl, ?_, ?_, ?_, ?_, ?_⟩ <;>
      · simp only [reconfigOkParams]
        cases env.l_out.hw_frames_ctx <;> rfl

/-- Witness for C5 at concrete inputs. -/
theorem reconfig_result_witness :
    (reconfig fcId vfCbFail paramsA envA).1 = -1 ∧
    (reconfig fcId vfEmptyCfg paramsA envA).1 = -1 ∧
    (reconfig fcId vfA paramsA envFail).1 = -1 ∧
    reconfig fcId vfA paramsA envA =
      (0, reconfigOkParams fcId paramsA envA,
        reconfigOkState fcId vfA paramsA envA) ∧
    reconfig fcId vfCbRot paramsA envA =
      (0, reconfigOkParams fcId (cbRot paramsA paramsA).2 envA,
        reconfigOkState fcId vfCbRot paramsA envA) :=
  ⟨(reconfig_result fcId vfCbFail paramsA envA cbFail).1 rfl (by decide),
   (reconfig_result fcId vfEmptyCfg paramsA envA cbFail).2.1 rfl,
   (reconfig_result fcId vfA paramsA envFail cbFail).2.2.1 rfl,
   (reconfig_result fcId vfA paramsA envA cbFail).2.2.2.1 rfl (by decide) rfl,
   (reconfig_result fcId vfCbRot paramsA envA cbRot).2.2.2.2.1 rfl (by decide)
     (by decide) rfl⟩

theorem reconfig_success_cb_none (fc : FmtConv) (vf : VfInstance)
    (inp : MpImageParams) (env : RecreateEnv)
    (hcb : vf.priv.lw_reconfig_cb = none)
    (h0 : (reconfig fc vf inp env).1 = 0) :
    reconfig fc vf inp env =
      (0, reconfigOkParams fc inp env, reconfigOkState fc vf inp env) := by
  rw [reconfig_cb_none fc vf inp env hcb] at h0 ⊢
  by_cases hg : vf.priv.cfg_graph = ""
  · rw [reconfigAfterCb_empty fc vf inp inp env hg] at h0
    simp at h0
  · cases hl : env.libOk
    · rw [reconfigAfterCb_noLib_fst fc vf inp inp env hl] at h0
      exact absurd h0 (by decide)
    · exact reconfigAfterCb_success fc vf inp inp env hg hl

/-- C8 as stated is false: with the rotate-bumping wrapper callback
installed, reconfiguration succeeds yet the output parameters' `rotate`
field differs from the input's, although `rotate` is not among the listed
overwritten fields. -/
theorem reconfig_untouched_fields_counterexample :
    (reconfig fcId vfCbRot paramsA envA).1 = 0 ∧
    (reconfig fcId vfCbRot paramsA envA).2.1.rotate ≠ paramsA.rotate := by
  rw [reconfig_cb_some fcId vfCbRot paramsA envA cbRot rfl,
    if_neg (by decide),
    reconfigAfterCb_success fcId vfCbRot paramsA _ envA (by decide) rfl]
  exact ⟨rfl, by decide⟩

/-- C8 (amended): on successful reconfiguration with no wrapper
reconfiguration callback installed, `reconfig` first copies every field of
the input parameters into the output parameters and afterwards overwrites
only `w`, `h`, `p_w`, `p_h`, `imgfmt`, and (only when the sink exposes a
hardware frames context) `hw_subfmt`; every other field of the output
parameters equals the corresponding field of the input parameters. (The
unamended claim fails when an installed `lw_reconfig_cb` rewrites other
output fields between the copy and the overwrites.) -/
theorem reconfig_untouched_fields (fc : FmtConv) (vf : VfInstance)
    (inp : MpImageParams) (env : RecreateEnv)
    (hcb : vf.priv.lw_reconfig_cb = none)
    (h0 : (reconfig fc vf inp env).1 = 0) :
    (reconfig fc vf inp env).2.1.colorspace = inp.colorspace ∧
    (reconfig fc vf inp env).2.1.colorlevels = inp.colorlevels ∧
    (reconfig fc vf inp env).2.1.primaries = inp.primaries ∧
    (reconfig fc vf inp env).2.1.gamma = inp.gamma ∧
    (reconfig fc vf inp env).2.1.chroma_location = inp.chroma_location ∧
    (reconfig fc vf inp env).2.1.rotate = inp.rotate ∧
    (reconfig fc vf inp env).2.1.stereo_in = inp.stereo_in ∧
    (reconfig fc vf inp env).2.1.stereo_out = inp.stereo_out ∧
    (reconfig fc vf inp env).2.1.w = env.l_out.w ∧
    (reconfig fc vf inp env).2.1.h = env.l_out.h ∧
    (reconfig fc vf inp env).2.1.p_w = env.l_out.sample_aspect_ratio.num ∧
    (reconfig fc vf inp env).2.1.p_h = env.l_out.sample_aspect_ratio.den ∧
    (reconfig fc vf inp env).2.1.imgfmt = fc.pixfmt2imgfmt env.l_out.format ∧
    (env.l_out.hw_frames_ctx = none →
      (reconfig fc vf inp env).2.1.hw_subfmt = inp.hw_subfmt) ∧
    (∀ fctx, env.l_out.hw_frames_ctx = some fctx →
      (reconfig fc vf inp env).2.1.hw_subfmt =
        fc.pixfmt2imgfmt fctx.sw_format) := by
  rw [reconfig_success_cb_none fc vf inp env hcb h0]
  simp only [reconfigOkParams]
  rcases hx : env.l_out.hw_frames_ctx with _ | fctx <;> simp [hx]

/-- Witness for C8 (amended) at concrete inputs, with and without a
hardware frames context on the sink. -/
theorem reconfig_untouched_fields_witness :
    (reconfig fcId vfA paramsA envA).2.1.rotate = paramsA.rotate ∧
    (reconfig fcId vfA paramsA envA).2.1.colorspace = paramsA.colorspace ∧
    (reconfig fcId vfA paramsA envA).2.1.w = envA.l_out.w ∧
    (reconfig fcId vfA paramsA envA).2.1.hw_subfmt = paramsA.hw_subfmt ∧
    (reconfig fcId vfA paramsA envHw).2.1.hw_subfmt =
      fcId.pixfmt2imgfmt (42 : Int) := by
  have h := reconfig_untouched_fields fcId vfA paramsA envA rfl (by decide)
  have hw := reconfig_untouched_fields fcId vfA paramsA envHw rfl (by decide)
  exact ⟨h.2.2.2.2.2.1, h.1, h.2.2.2.2.2.2.2.2.1,
    h.2.2.2.2.2.2.2.2.2.2.2.2.2.1 rfl,
    hw.2.2.2.2.2.2.2.2.2.2.2.2.2.2 ⟨42, 5⟩ rfl⟩

theorem recreate_graph_fst_true (fc : FmtConv) (vf : VfInstance)
    (fmt : MpImageParams) (env : RecreateEnv)
    (h : (recreate_graph fc vf fmt env).1 = true) :
    vf.priv.cfg_graph ≠ "" ∧ env.libOk = true := by
  by_cases hg : vf.priv.cfg_graph = ""
  · rw [recreate_graph_empty fc vf fmt env hg] at h
    simp at h
  · cases hl : env.libOk
    · rw [recreate_graph_noLib fc vf fmt env hg hl] at h
      simp at h
    · exact ⟨hg, rfl⟩

theorem recreate_graph_in_hwframes (fc : FmtConv) (vf : VfInstance)
    (fmt : MpImageParams) (env : RecreateEnv) :
    (recreate_graph fc vf fmt env).2.in_hwframes_ref = vf.in_hwframes_ref := by
  by_cases hg : vf.priv.cfg_graph = ""
  · rw [recreate_graph_empty fc vf fmt env hg]
  · cases hl : env.libOk
    · rw [recreate_graph_noLib fc vf fmt env hg hl]; rfl
    · rw [recreate_graph_success fc vf fmt env hg hl]; rfl

theorem reset_in_hwframes (fc : FmtConv) (vf : VfInstance)
    (env : RecreateEnv) :
    (reset fc vf env).in_hwframes_ref = vf.in_hwframes_ref := by
  simp only [reset]
  split_ifs
  · exact recreate_graph_in_hwframes fc vf vf.fmt_in env
  · rfl

theorem reconfigAfterCb_in_hwframes (fc : FmtConv) (vf : VfInstance)
    (inp out : MpImageParams) (env : RecreateEnv) :
    (reconfigAfterCb fc vf inp out env).2.2.in_hwframes_ref =
      vf.in_hwframes_ref := by
  by_cases hg : vf.priv.cfg_graph = ""
  · rw [reconfigAfterCb_empty fc vf inp out env hg]
  · cases hl : env.libOk
    · rw [reconfigAfterCb_noGraph fc vf inp out env hg hl]; rfl
    · rw [reconfigAfterCb_success fc vf inp out env hg hl]; rfl

theorem reconfig_in_hwframes (fc : FmtConv) (vf : VfInstance)
    (inp : MpImageParams) (env : RecreateEnv) :
    (reconfig fc vf inp env).2.2.in_hwframes_ref = vf.in_hwframes_ref := by
  rcases hcb : vf.priv.lw_reconfig_cb with _ | cb
  · rw [reconfig_cb_none fc vf inp env hcb]
    exact reconfigAfterCb_in_hwframes fc vf inp inp env
  · rw [reconfig_cb_some fc vf inp env cb hcb]
    split_ifs
    · rfl
    · exact reconfigAfterCb_in_hwframes fc vf inp _ env

theorem filter_ext_inject_in_hwframes (fc : FmtConv) (vf : VfInstance)
    (mpi : Option MpImage) (addRet : Int) :
    (filter_ext_inject fc vf mpi addRet).2.in_hwframes_ref =
      vf.in_hwframes_ref := by
  unfold filter_ext_inject
  split
  · rfl
  · split_ifs <;> rfl

theorem filter_ext_in_hwframes (fc : FmtConv) (vf : VfInstance)
    (mpi : Option MpImage) (env : RecreateEnv) (addRet : Int) :
    (filter_ext fc vf mpi env addRet).2.in_hwframes_ref =
      vf.in_hwframes_ref := by
  simp only [filter_ext]
  rw [filter_ext_inject_in_hwframes]
  split_ifs
  · exact reset_in_hwframes fc vf env
  · rfl

/-- C3: the hardware frames context is passed through unmodified. During
graph creation the adapter stores the instance's input hardware-frames
reference into the buffer-source parameters unaltered; on successful
reconfiguration it stores a reference to the buffer sink's hardware frames
context (deriving only `hw_subfmt` from that context's software format);
and no adapter operation changes the input hardware-frames reference or the
contents of any hardware frames context it passes along. -/
theorem hwframes_passthrough (fc : FmtConv) (vf : VfInstance)
    (fmt inp : MpImageParams) (env : RecreateEnv) (mpi : Option MpImage)
    (addRet : Int) (sink : SinkResult) (fctx : HWFramesCtx) :
    ((recreate_graph fc vf fmt env).1 = true →
      (recreate_graph fc vf fmt env).2.priv.graph.map
        (fun g => g.srcParams.hw_frames_ctx) = some vf.in_hwframes_ref) ∧
    (env.l_out.hw_frames_ctx = some fctx → (reconfig fc vf inp env).1 = 0 →
      (reconfig fc vf inp env).2.2.out_hwframes_ref = some fctx ∧
      (reconfig fc vf inp env).2.1.hw_subfmt =
        fc.pixfmt2imgfmt fctx.sw_format) ∧
    (recreate_graph fc vf fmt env).2.in_hwframes_ref = vf.in_hwframes_ref ∧
    (reconfig fc vf inp env).2.2.in_hwframes_ref = vf.in_hwframes_ref ∧
    (filter_ext fc vf mpi env addRet).2.in_hwframes_ref =
      vf.in_hwframes_ref ∧
    (filter_out vf sink).2.1.in_hwframes_ref = vf.in_hwframes_ref := by
  refine ⟨?_, ?_, recreate_graph_in_hwframes fc vf fmt env,
    reconfig_in_hwframes fc vf inp env,
    filter_ext_in_hwframes fc vf mpi env addRet, ?_⟩
  · intro h
    obtain ⟨hg, hl⟩ := recreate_graph_fst_true fc vf fmt env h
    rw [recreate_graph_success fc vf fmt env hg hl]
    rfl
  · intro hx h0
    rcases hcb : vf.priv.lw_reconfig_cb with _ | cb
    · rw [reconfig_success_cb_none fc vf inp env hcb h0]
      constructor
      · simp [reconfigOkState, hx]
      · simp [reconfigOkParams, hx]
    · rw [reconfig_cb_some fc vf inp env cb hcb] at h0 ⊢
      by_cases hr : (cb inp inp).1 < 0
      · rw [if_pos hr] at h0
        simp at h0
      · rw [if_neg hr] at h0 ⊢
        by_cases hg : vf.priv.cfg_graph = ""
        · rw [reconfigAfterCb_empty fc vf inp _ env hg] at h0
          simp at h0
        · cases hl : env.libOk
          · rw [reconfigAfterCb_noLib_fst fc vf inp _ env hl] at h0
            exact absurd h0 (by decide)
          · rw [reconfigAfterCb_success fc vf inp _ env hg hl]
            constructor
            · simp [reconfigOkState, hx]
            · simp [reconfigOkParams, hx]
  · cases sink <;> rfl

/-- Witness for C3 at concrete inputs. -/
theorem hwframes_passthrough_witness :
    (recreate_graph fcId vfA paramsA envA).2.priv.graph.map
      (fun g => g.srcParams.hw_frames_ctx) = some vfA.in_hwframes_ref ∧
    (reconfig fcId vfA paramsA envHw).2.2.out_hwframes_ref =
      some ⟨42, 5⟩ ∧
    (reconfig fcId vfA paramsA envHw).2.1.hw_subfmt =
      fcId.pixfmt2imgfmt (42 : Int) ∧
    (filter_out vfA .eagain).2.1.in_hwframes_ref = vfA.in_hwframes_ref := by
  have h := hwframes_passthrough fcId vfA paramsA paramsA envHw none 0
    .eagain ⟨42, 5⟩
  have h2 := hwframes_passthrough fcId vfA paramsA paramsA envA none 0
    .eagain ⟨42, 5⟩
  exact ⟨h2.1 (by decide), (h.2.1 rfl (by decide)).1,
    (h.2.1 rfl (by decide)).2, h.2.2.2.2.2⟩

theorem recreate_graph_eofinv (fc : FmtConv) (vf : VfInstance)
    (fmt : MpImageParams) (env : RecreateEnv) (h : EofInv vf) :
    EofInv (recreate_graph fc vf fmt env).2 := by
  by_cases hg : vf.priv.cfg_graph = ""
  · rw [recreate_graph_empty fc vf fmt env hg]; exact h
  · cases hl : env.libOk
    · rw [recreate_graph_noLib fc vf fmt env hg hl]
      intro he; simp [destroy_graph] at he
    · rw [recreate_graph_success fc vf fmt env hg hl]
      intro _; rfl

theorem reset_eofinv (fc : FmtConv) (vf : VfInstance) (env : RecreateEnv)
    (h : EofInv vf) : EofInv (reset fc vf env) := by
  simp only [reset]
  split_ifs
  · exact recreate_graph_eofinv fc vf vf.fmt_in env h
  · exact h

theorem filter_ext_inject_eofinv (fc : FmtConv) (vf : VfInstance)
    (mpi : Option MpImage) (addRet : Int) (h : EofInv vf) :
    EofInv (filter_ext_inject fc vf mpi addRet).2 := by
  rcases hg : vf.priv.graph with _ | g <;>
    simp only [filter_ext_inject, hg]
  · exact h
  · split_ifs <;> intro he <;>
      first
        | rfl
        | exact h he
        | simp [hg]

theorem filter_ext_eofinv (fc : FmtConv) (vf : VfInstance)
    (mpi : Option MpImage) (env : RecreateEnv) (addRet : Int) (h : EofInv vf) :
    EofInv (filter_ext fc vf mpi env addRet).2 := by
  simp only [filter_ext]
  split_ifs
  · exact filter_ext_inject_eofinv fc _ mpi addRet (reset_eofinv fc vf env h)
  · exact filter_ext_inject_eofinv fc vf mpi addRet h

/-- C1: the EOF protocol of `filter_ext` over call sequences. The EOF flag
is only raised while a graph exists and `filter_ext` preserves that
invariant; a NULL image with EOF already set returns 0 touching nothing; a
NULL image with EOF unset latches the flag and injects a flush (`none`)
frame into the buffer source; a non-NULL image with EOF set recreates the
graph (`reset`) before injecting, so the frame lands alone in the fresh
graph; and `filter_out` latches the EOF flag whenever the buffer sink
reports `AVERROR_EOF`. -/
theorem filter_ext_eof_protocol (fc : FmtConv) (vf : VfInstance)
    (mpi : Option MpImage) (env : RecreateEnv) (addRet : Int) (g : Graph)
    (img : MpImage) :
    (EofInv vf → EofInv (filter_ext fc vf mpi env addRet).2) ∧
    (vf.priv.eof = true → vf.priv.graph = some g →
      filter_ext fc vf none env addRet = (0, vf)) ∧
    (vf.priv.eof = false → vf.priv.graph = some g → addRet ≥ 0 →
      filter_ext fc vf none env addRet =
        (0, { vf with priv := { vf.priv with
                eof := true
                graph := some { g with injected := g.injected ++ [none] } } })) ∧
    (vf.priv.eof = true → mpi.isSome = true →
      filter_ext fc vf mpi env addRet =
        filter_ext_inject fc (reset fc vf env) mpi addRet) ∧
    (vf.priv.eof = true → vf.priv.graph = some g → vf.fmt_in.imgfmt ≠ 0 →
      vf.priv.cfg_graph ≠ "" → env.libOk = true → addRet ≥ 0 →
      (filter_ext fc vf (some img) env addRet).1 = 0 ∧
      (filter_ext fc vf (some img) env addRet).2.priv.graph.map
        Graph.injected = some [mp_to_av vf.priv (some img)]) ∧
    (filter_out vf .eof).2.1.priv.eof = true := by
  refine ⟨filter_ext_eofinv fc vf mpi env addRet, ?_, ?_, ?_, ?_, rfl⟩
  · intro he hg
    simp [filter_ext, filter_ext_inject, he, hg]
  · intro he hg ha
    have hra : ¬ addRet < 0 := not_lt.mpr ha
    simp [filter_ext, filter_ext_inject, he, hg, hra, mp_to_av]
  · intro he hm
    simp [filter_ext, he, hm]
  · intro he hg hf hcfg hl ha
    have hra : ¬ addRet < 0 := not_lt.mpr ha
    have hcond : (vf.priv.graph.isSome && (vf.fmt_in.imgfmt != 0)) = true := by
      rw [hg]; simp [hf]
    have hreset : reset fc vf env = recreateOkState fc vf vf.fmt_in env := by
      simp only [reset, hcond, if_true]
      rw [recreate_graph_success fc vf vf.fmt_in env hcfg hl]
    have hstep : filter_ext fc vf (some img) env addRet =
        filter_ext_inject fc (recreateOkState fc vf vf.fmt_in env) (some img)
          addRet := by
      simp only [filter_ext, he, Option.isSome_some, Bool.and_self, if_true,
        hreset]
    rw [hstep]
    simp [filter_ext_inject, recreateOkState, mp_to_av, hra]

/-- Witness for C1 at concrete inputs. -/
theorem filter_ext_eof_protocol_witness :
    (filter_ext fcId vfA none envA 0).2.priv.graph.isSome = true ∧
    filter_ext fcId vfEof none envA 0 = (0, vfEof) ∧
    (filter_ext fcId vfA none envA 0).2.priv.eof = true ∧
    (filter_ext fcId vfA none envA 0).2.priv.graph.map Graph.injected =
      some [none] ∧
    filter_ext fcId vfEof (some imgC) envA 0 =
      filter_ext_inject fcId (reset fcId vfEof envA) (some imgC) 0 ∧
    (filter_ext fcId vfEof (some imgC) envA 0).1 = 0 ∧
    (filter_ext fcId vfEof (some imgC) envA 0).2.priv.graph.map
      Graph.injected = some [mp_to_av vfEof.priv (some imgC)] ∧
    (filter_out vfA .eof).2.1.priv.eof = true := by
  have t := filter_ext_eof_protocol fcId vfA none envA 0 graphA imgC
  have te := filter_ext_eof_protocol fcId vfEof (some imgC) envA 0 graphA imgC
  have hb := t.2.2.1 rfl rfl (by decide)
  have hc := te.2.2.2.2.1 rfl rfl (by decide) (by decide) rfl (by decide)
  refine ⟨?_, te.2.1 rfl rfl, ?_, ?_, te.2.2.2.1 rfl rfl, hc.1, hc.2,
    t.2.2.2.2.2⟩
  · have hinv := t.1 (fun h => absurd h (by decide))
    apply hinv
    rw [hb]
  · rw [hb]
  · rw [hb]; rfl

/-- A `vf_instance` still owned by some old wrapped filter: foreign private
data (block id 11) and foreign callbacks. -/
def lwA : LwInstance :=
  { priv_id := 11, priv := none
    reconfig_cb := .foreign 1, filter_ext_cb := .foreign 2
    filter_out_cb := .foreign 3, filter_cb := .foreign 4
    query_format_cb := .foreign 5, control_cb := .foreign 6
    uninit_cb := .foreign 7 }

/-- C10: `vf_lw_set_graph` is atomic on failure. If a filter name is given
that the libavfilter registry does not know, it returns -1 and leaves the
instance entirely unchanged; otherwise it replaces the private data with a
fresh `vf_lavfi` block (defaults plus the lw options, the graph string
`filter=opts` or plain `opts`, the old private block preserved in
`old_priv`), installs every `vf_lavfi` callback, and returns 1. -/
theorem vf_lw_set_graph_atomic (registry : List String) (vf : LwInstance)
    (lavfi_opts : Option VfLwOpts) (fname s : String) :
    (have_filter registry fname = false →
      vf_lw_set_graph registry vf lavfi_opts (some fname) s = (-1, vf)) ∧
    (have_filter registry fname = true →
      vf_lw_set_graph registry vf lavfi_opts (some fname) s =
        (1, { vf with
                priv_id := vf.priv_id + 1
                priv := some { vf_priv_dflt with
                  cfg_sws_flags :=
                    (lavfi_opts.getD vf_lw_conf_defaults).sws_flags
                  cfg_avopts := (lavfi_opts.getD vf_lw_conf_defaults).avopts
                  cfg_graph := fname ++ "=" ++ s
                  old_priv := some vf.priv_id }
                reconfig_cb := .lavfi "reconfig"
                filter_ext_cb := .lavfi "filter_ext"
                filter_out_cb := .lavfi "filter_out"
                filter_cb := .unset
                query_format_cb := .lavfi "query_format"
                control_cb := .lavfi "control"
                uninit_cb := .lavfi "uninit" })) ∧
    vf_lw_set_graph registry vf lavfi_opts none s =
      (1, { vf with
              priv_id := vf.priv_id + 1
              priv := some { vf_priv_dflt with
                cfg_sws_flags :=
                  (lavfi_opts.getD vf_lw_conf_defaults).sws_flags
                cfg_avopts := (lavfi_opts.getD vf_lw_conf_defaults).avopts
                cfg_graph := s
                old_priv := some vf.priv_id }
              reconfig_cb := .lavfi "reconfig"
              filter_ext_cb := .lavfi "filter_ext"
              filter_out_cb := .lavfi "filter_out"
              filter_cb := .unset
              query_format_cb := .lavfi "query_format"
              control_cb := .lavfi "control"
              uninit_cb := .lavfi "uninit" }) ∧
    vf.priv_id + 1 ≠ vf.priv_id := by
  refine ⟨?_, ?_, ?_, by omega⟩
  · intro h
    simp [vf_lw_set_graph, h]
  · intro h
    simp [vf_lw_set_graph, vf_open, h]
  · simp [vf_lw_set_graph, vf_open]

/-- Witness for C10 at concrete inputs. -/
theorem vf_lw_set_graph_atomic_witness :
    vf_lw_set_graph ["gradfun"] lwA none (some "unsharp") "opts" =
      (-1, lwA) ∧
    (vf_lw_set_graph ["gradfun"] lwA none (some "gradfun") "20:30").1 = 1 ∧
    (vf_lw_set_graph ["gradfun"] lwA none (some "gradfun") "20:30").2.priv =
      some { vf_priv_dflt with
               cfg_graph := "gradfun=20:30", old_priv := some 11 } ∧
    (vf_lw_set_graph ["gradfun"] lwA none (some "gradfun")
      "20:30").2.reconfig_cb = .lavfi "reconfig" ∧
    (vf_lw_set_graph ["gradfun"] lwA none none "yadif=0").2.priv =
      some { vf_priv_dflt with cfg_graph := "yadif=0", old_priv := some 11 } := by
  have hbad := vf_lw_set_graph_atomic ["gradfun"] lwA none "unsharp" "opts"
  have hok := vf_lw_set_graph_atomic ["gradfun"] lwA none "gradfun" "20:30"
  have hnone := vf_lw_set_graph_atomic ["gradfun"] lwA none "x" "yadif=0"
  have h2 := hok.2.1 (by decide)
  refine ⟨hbad.1 (by decide), ?_, ?_, ?_, ?_⟩
  · rw [h2]
  · rw [h2]; rfl
  · rw [h2]
  · rw [hnone.2.2.1]; rfl
